import Mathlib

/-!
Verification development for the gallery-3d-viewer interaction and drag
subsystem (src/src/interaction.js, src/src/drag.js, loaders socket registry).

JavaScript numbers are modelled by `JsNum`: exact rationals extended with
NaN and the two infinities.  `Math.max`, `Math.min`, arithmetic and the
comparison operators follow IEEE-754 special-value rules; rounding of finite
values and signed zero are idealized away (the properties checked here do not
depend on them).  Transcendental operations of the controller (`Math.pow`,
`Math.exp`, `Math.atan2`, `Math.hypot`) are modelled by their exact real
counterparts over `ℝ` in the controller section below.
-/

/-- Model of a JavaScript number: NaN, +Infinity, -Infinity, or a finite
value (idealized as an exact rational). -/
inductive JsNum where
  | nan : JsNum
  | posInf : JsNum
  | negInf : JsNum
  | num : ℚ → JsNum
deriving DecidableEq, Repr

namespace JsNum

/-- `Number.isFinite`. -/
def isFinite : JsNum → Bool
  | num _ => true
  | _ => false

/-- `Math.max` (two-argument): NaN-propagating maximum. -/
def jmax : JsNum → JsNum → JsNum
  | nan, _ => nan
  | _, nan => nan
  | posInf, _ => posInf
  | _, posInf => posInf
  | negInf, b => b
  | a, negInf => a
  | num a, num b => num (max a b)

/-- `Math.min` (two-argument): NaN-propagating minimum. -/
def jmin : JsNum → JsNum → JsNum
  | nan, _ => nan
  | _, nan => nan
  | negInf, _ => negInf
  | _, negInf => negInf
  | posInf, b => b
  | a, posInf => a
  | num a, num b => num (min a b)

/-- JS addition with IEEE special-value rules. -/
def add : JsNum → JsNum → JsNum
  | nan, _ => nan
  | _, nan => nan
  | posInf, negInf => nan
  | negInf, posInf => nan
  | posInf, _ => posInf
  | _, posInf => posInf
  | negInf, _ => negInf
  | _, negInf => negInf
  | num a, num b => num (a + b)

/-- JS unary negation. -/
def neg : JsNum → JsNum
  | nan => nan
  | posInf => negInf
  | negInf => posInf
  | num a => num (-a)

/-- JS multiplication with IEEE special-value rules (0 times infinity is NaN). -/
def mul : JsNum → JsNum → JsNum
  | nan, _ => nan
  | _, nan => nan
  | posInf, posInf => posInf
  | posInf, negInf => negInf
  | negInf, posInf => negInf
  | negInf, negInf => posInf
  | posInf, num b => if 0 < b then posInf else if b < 0 then negInf else nan
  | num a, posInf => if 0 < a then posInf else if a < 0 then negInf else nan
  | negInf, num b => if 0 < b then negInf else if b < 0 then posInf else nan
  | num a, negInf => if 0 < a then negInf else if a < 0 then posInf else nan
  | num a, num b => num (a * b)

/-- JS division with IEEE special-value rules (signed zero idealized to +0,
so division of a nonzero finite value by zero yields the infinity matching
the dividend's sign, and 0/0 is NaN). -/
def div : JsNum → JsNum → JsNum
  | nan, _ => nan
  | _, nan => nan
  | posInf, posInf => nan
  | posInf, negInf => nan
  | negInf, posInf => nan
  | negInf, negInf => nan
  | posInf, num b => if 0 ≤ b then posInf else negInf
  | negInf, num b => if 0 ≤ b then negInf else posInf
  | num _, posInf => num 0
  | num _, negInf => num 0
  | num a, num b =>
      if b = 0 then (if a = 0 then nan else if 0 < a then posInf else negInf)
      else num (a / b)

/-- JS strict less-than: false whenever either operand is NaN. -/
def jlt : JsNum → JsNum → Bool
  | nan, _ => false
  | _, nan => false
  | posInf, _ => false
  | _, posInf => true
  | negInf, negInf => false
  | negInf, _ => true
  | _, negInf => false
  | num a, num b => decide (a < b)

end JsNum

open JsNum

/-- `clamp(value, min, max)` from src/src/interaction.js:
`Math.max(min, Math.min(max, value))`, under JS number semantics. -/
def clampJs (value minv maxv : JsNum) : JsNum :=
  jmax minv (jmin maxv value)

/-- The zoom update performed by `onWheel` in src/src/interaction.js:
`effectiveSpeed` switches to the pinch multiplier when the event is
pinch-like (ctrl key or line delta-mode), and the new `zoomDistance` is
`clamp(zoomDistance + deltaY * effectiveSpeed, minZoom, maxZoom)`. -/
def wheelZoomJs (zoomSpeed pinchZoomMultiplier minZoom maxZoom zoomDistance deltaY : JsNum)
    (isPinchLike : Bool) : JsNum :=
  let effectiveSpeed := if isPinchLike then mul zoomSpeed pinchZoomMultiplier else zoomSpeed
  clampJs (add zoomDistance (mul deltaY effectiveSpeed)) minZoom maxZoom

/-- The zoom update performed by the two-pointer (pinch) branch of
`onPointerMove` in src/src/interaction.js, as a function of the frame-to-frame
pinch distance delta: `zoomDelta = -distDelta * (zoomSpeed * pinchZoomMultiplier)`
followed by the same clamp. -/
def pinchZoomJs (zoomSpeed pinchZoomMultiplier minZoom maxZoom zoomDistance distDelta : JsNum) :
    JsNum :=
  clampJs (add zoomDistance (mul (neg distDelta) (mul zoomSpeed pinchZoomMultiplier)))
    minZoom maxZoom

/-- A configured object entry (from the HJSON object config), as consumed by
`relativeScale` in src/src/drag.js: its `objClass`, and its optional declared
`size` (absent field modelled as `none`). -/
structure Entry where
  name : String
  objClass : String
  size : Option JsNum
deriving DecidableEq, Repr

/-- `Number.isFinite(entry.size)` where `entry.size` may be absent. -/
def sizeIsFinite : Option JsNum → Bool
  | none => false
  | some s => s.isFinite

/-- `relativeScale(entry, baseSize, baseRadius, accessoryRadius)` from
src/src/drag.js, translated clause by clause:
returns `none` (JS `undefined`) for a missing or non-accessory entry or a
non-finite declared size; defaults `baseSize` to 1 unless finite positive;
uses the radius quotient `baseRadius / accessoryRadius` only when both radii
are finite and `accessoryRadius > 0` (else 1); returns the product only when
it is finite and positive. -/
def relativeScale (entry : Option Entry) (baseSize baseRadius accessoryRadius : JsNum) :
    Option JsNum :=
  match entry with
  | none => none
  | some e =>
    if e.objClass ≠ "accessory" then none
    else
      let base := if baseSize.isFinite && jlt (num 0) baseSize then baseSize else num 1
      match e.size with
      | none => none
      | some s =>
        if ¬ s.isFinite then none
        else
          let relative := div s base
          let radiusFactor :=
            if baseRadius.isFinite && accessoryRadius.isFinite && jlt (num 0) accessoryRadius
            then div baseRadius accessoryRadius else num 1
          let finalScale := mul relative radiusFactor
          if finalScale.isFinite && jlt (num 0) finalScale then some finalScale else none

/-- The claim's reading of `relativeScale` (C3 / spec §4.3), for comparison
with the code: the geometry quotient defaults to 1 whenever EITHER radius is
not a finite positive number, and the declared size is divided by `baseSize`
itself. -/
def relativeScaleClaimed (entry : Option Entry) (baseSize baseRadius accessoryRadius : JsNum) :
    Option JsNum :=
  match entry with
  | none => none
  | some e =>
    if e.objClass ≠ "accessory" then none
    else
      match e.size with
      | none => none
      | some s =>
        if ¬ s.isFinite then none
        else
          let radiusFactor :=
            if baseRadius.isFinite && jlt (num 0) baseRadius &&
                accessoryRadius.isFinite && jlt (num 0) accessoryRadius
            then div baseRadius accessoryRadius else num 1
          let finalScale := mul (div s baseSize) radiusFactor
          if finalScale.isFinite && jlt (num 0) finalScale then some finalScale else none

/-! ### Socket registry (loaders `collectSockets`) -/

/-- A node of a loaded model's subtree; only its `name` matters for socket
discovery (`none` models a missing name). -/
structure SNode where
  name : Option String
deriving DecidableEq, Repr

/-- A record of the socket registry: `{ objectId, socketId, threeJsNode }`. -/
structure SocketRecord where
  objectId : String
  socketId : String
  node : SNode
deriving DecidableEq, Repr

/-- The discovery predicate of `collectSockets`: the node has a string name
that is truthy (non-empty) and starts with the reserved `socket_` marker
(`name.startsWith('socket_')`, stated over the character list). -/
def isSocketNode (n : SNode) : Bool :=
  match n.name with
  | none => false
  | some s => (!(s = "")) && "socket_".data.isPrefixOf s.data

/-- The socket records contributed by one traversal of a model's nodes
(given in traversal order) for a given `objectId`. -/
def socketsOf (nodes : List SNode) (objectId : String) : List SocketRecord :=
  (nodes.filter isSocketNode).map
    (fun n => { objectId := objectId, socketId := n.name.getD "", node := n })

/-- `collectSockets(model, objectId)` from the loaders module: splice out all
registry entries whose `objectId` matches (a reverse-index splice loop, which
removes every match while preserving the order of the rest), then append the
newly discovered socket records. -/
def collectSockets (registry : List SocketRecord) (nodes : List SNode) (objectId : String) :
    List SocketRecord :=
  registry.filter (fun r => r.objectId ≠ objectId) ++ socketsOf nodes objectId

/-! ### Interaction controller (src/src/interaction.js) over exact reals

The controller's mutable closure state (`enabled`, `isDragging`, `lastX`,
`lastY`, `lastMoveTime`, `velocityX`, `velocityY`, `coasting`,
`zoomDistance`, `pinchStartDistance`, `activePointers`) together with the
externally mutated `model.rotation` and `camera.position` is collected in
one state record, and each event handler / the per-frame `update` becomes a
state transition function.  `Math.pow`, `Math.exp`, `Math.sin`, `Math.cos`,
`Math.atan2` and `Math.hypot` are modelled by their exact real
counterparts. -/

/-- The numeric configuration of `createInteractionController`, after
destructuring with defaults. -/
structure IConfig where
  spinAcceleration : ℝ
  spinFriction : ℝ
  idleSpinImpulse : ℝ
  minZoom : ℝ
  maxZoom : ℝ
  zoomSpeed : ℝ
  pinchZoomMultiplier : ℝ
  xAxisMultiplier : ℝ
  yAxisMultiplier : ℝ
  minAngularSpeed : ℝ
  initialYawSpin : ℝ
  uprightStrength : ℝ
  uprightThreshold : ℝ

/-- The stated defaults of the destructuring in
`createInteractionController`. -/
noncomputable def defaultIConfig : IConfig where
  spinAcceleration := 2.0
  spinFriction := 0.3
  idleSpinImpulse := 0.2
  minZoom := 2
  maxZoom := 12
  zoomSpeed := 0.002
  pinchZoomMultiplier := 4
  xAxisMultiplier := 0.6
  yAxisMultiplier := 1.0
  minAngularSpeed := 0.0
  initialYawSpin := 0.0
  uprightStrength := 0.0
  uprightThreshold := 0.0

/-- The controller's state: its closure variables plus the model rotation and
camera position it mutates.  `activePointers` models the insertion-ordered JS
`Map` from pointer id to last client position. -/
structure IState where
  enabled : Bool
  isDragging : Bool
  coasting : Bool
  lastX : ℝ
  lastY : ℝ
  lastMoveTime : ℝ
  velocityX : ℝ
  velocityY : ℝ
  zoomDistance : ℝ
  pinchStartDistance : ℝ
  activePointers : List (Nat × ℝ × ℝ)
  rotX : ℝ
  rotY : ℝ
  rotZ : ℝ
  camX : ℝ
  camY : ℝ
  camZ : ℝ

/-- `clamp(value, min, max)` over reals (the same source helper as `clampJs`,
on the finite-value fragment). -/
noncomputable def clampR (value lo hi : ℝ) : ℝ := max lo (min hi value)

/-- `Math.sign`. -/
noncomputable def signR (x : ℝ) : ℝ := if 0 < x then 1 else if x < 0 then -1 else 0

/-- `Math.atan2(y, x)` as its exact real counterpart. -/
noncomputable def atan2R (y x : ℝ) : ℝ :=
  if 0 < x then Real.arctan (y / x)
  else if x < 0 then
    (if 0 ≤ y then Real.arctan (y / x) + Real.pi else Real.arctan (y / x) - Real.pi)
  else if 0 < y then Real.pi / 2
  else if y < 0 then -(Real.pi / 2)
  else 0

/-- `normalizeAngle` from src/src/interaction.js:
`Math.atan2(Math.sin(angle), Math.cos(angle))`. -/
noncomputable def normalizeAngle (angle : ℝ) : ℝ :=
  atan2R (Real.sin angle) (Real.cos angle)

/-- `update(delta)` from src/src/interaction.js, line by line: integrate
angular velocity into yaw/pitch, apply frame-rate-independent damping
`(1 - clamp(spinFriction,0,1)) ^ delta` (real exponentiation modelling
`Math.pow`), then the conditional self-righting term, the coasting minimum
angular speed floor, and the below-floor decay-to-zero when not coasting. -/
noncomputable def update (cfg : IConfig) (st : IState) (delta : ℝ) : IState :=
  let rotY := st.rotY + st.velocityX * delta
  let rotX := st.rotX + st.velocityY * delta
  let frictionClamped := clampR cfg.spinFriction 0 1
  let damping := (1 - frictionClamped) ^ delta
  let vX1 := st.velocityX * damping
  let vY1 := st.velocityY * damping
  let speedMag := max |vX1| |vY1|
  let minSpeed := max cfg.minAngularSpeed 0
  let uprightKickIn := max cfg.uprightThreshold minSpeed
  let uprightActive := st.coasting = true ∧ 0 < cfg.uprightStrength ∧ speedMag ≤ uprightKickIn
  let vY2 :=
    if uprightActive then
      let vYa := vY1 * Real.exp (-cfg.uprightStrength * delta)
      let angleX := normalizeAngle rotX
      let vYb := vYa + (-angleX * cfg.uprightStrength * delta)
      if |vYb| < 1e-5 then 0 else vYb
    else vY1
  let vX3 :=
    if st.coasting = true ∧ 0 < minSpeed then
      (if |vX1| < minSpeed then signR vX1 * minSpeed else vX1)
    else vX1
  let vY3 :=
    if st.coasting = true ∧ 0 < minSpeed then
      (if ¬ uprightActive ∧ |vY2| < minSpeed then signR vY2 * minSpeed else vY2)
    else vY2
  let vX4 :=
    if ¬ st.coasting = true ∧ ¬ st.isDragging = true ∧ 0 < minSpeed then
      (if |vX3| < minSpeed then 0 else vX3)
    else vX3
  let vY4 :=
    if ¬ st.coasting = true ∧ ¬ st.isDragging = true ∧ 0 < minSpeed then
      (if |vY3| < minSpeed then 0 else vY3)
    else vY3
  { st with rotY := rotY, rotX := rotX, velocityX := vX4, velocityY := vY4 }

/-- Iterated per-frame updates with a fixed `delta`. -/
noncomputable def updateIter (cfg : IConfig) (delta : ℝ) : Nat → IState → IState
  | 0, st => st
  | n + 1, st => update cfg (updateIter cfg delta n st) delta

/-- A pointer event as consumed by the controller handlers. -/
structure PEvent where
  pointerId : Nat
  clientX : ℝ
  clientY : ℝ
  timeStamp : ℝ

/-- Whether the JS `Map` holds a key. -/
def hasKey (m : List (Nat × ℝ × ℝ)) (k : Nat) : Bool :=
  m.any (fun p => p.1 == k)

/-- JS `Map.set`: replace the value at an existing key in place (preserving
insertion order), else append. -/
def mapSet (m : List (Nat × ℝ × ℝ)) (k : Nat) (v : ℝ × ℝ) : List (Nat × ℝ × ℝ) :=
  if m.any (fun p => p.1 == k) then m.map (fun p => if p.1 == k then (k, v) else p)
  else m ++ [(k, v)]

/-- `distance(p1, p2)` from src/src/interaction.js: `Math.hypot(dx, dy)`. -/
noncomputable def distR (p q : ℝ × ℝ) : ℝ :=
  Real.sqrt ((p.1 - q.1) ^ 2 + (p.2 - q.2) ^ 2)

/-- `onPointerMove(event)` from src/src/interaction.js.  The
`event.timeStamp || performance.now()` time source is modelled by the event's
`timeStamp` field (the fallback only replaces a zero timestamp by another
external clock value). -/
noncomputable def onPointerMove (cfg : IConfig) (st : IState) (ev : PEvent) : IState :=
  if st.enabled = false then st
  else if ¬ hasKey st.activePointers ev.pointerId then st
  else
    let pointers := mapSet st.activePointers ev.pointerId (ev.clientX, ev.clientY)
    let points := pointers.map Prod.snd
    let now := ev.timeStamp
    if points.length = 2 then
      let pinchDist := distR (points.getD 0 (0, 0)) (points.getD 1 (0, 0))
      let pinchStart := if st.pinchStartDistance = 0 then pinchDist else st.pinchStartDistance
      let distDelta := pinchDist - pinchStart
      let zoomDelta := -distDelta * (cfg.zoomSpeed * cfg.pinchZoomMultiplier)
      let zoom := clampR (st.zoomDistance + zoomDelta) cfg.minZoom cfg.maxZoom
      { st with
        activePointers := pointers
        lastMoveTime := now
        pinchStartDistance := pinchDist
        zoomDistance := zoom
        camZ := zoom }
    else if st.isDragging = false ∨ points.length = 0 then
      { st with activePointers := pointers, lastMoveTime := now }
    else
      let p0 := points.getD 0 (0, 0)
      let dx := p0.1 - st.lastX
      let dy := p0.2 - st.lastY
      let accel := cfg.spinAcceleration * 0.002
      let rotYd := dx * accel * cfg.yAxisMultiplier
      let rotXd := dy * accel * cfg.xAxisMultiplier
      let dtMs := max (now - st.lastMoveTime) 1
      let dtSeconds := dtMs / 1000
      let safeDt := max dtSeconds 0.001
      { st with
        activePointers := pointers
        lastMoveTime := now
        lastX := p0.1
        lastY := p0.2
        rotY := st.rotY + rotYd
        rotX := st.rotX + rotXd
        velocityX := rotYd / safeDt
        velocityY := rotXd / safeDt }

/-- A wheel event as consumed by `onWheel`. -/
structure WEvent where
  deltaY : ℝ
  ctrlKey : Bool
  deltaMode : Nat

/-- `onWheel(event)` from src/src/interaction.js. -/
noncomputable def onWheel (cfg : IConfig) (st : IState) (ev : WEvent) : IState :=
  if st.enabled = false then st
  else
    let isPinchLike := ev.ctrlKey || (ev.deltaMode == 1)
    let effectiveSpeed :=
      if isPinchLike then cfg.zoomSpeed * cfg.pinchZoomMultiplier else cfg.zoomSpeed
    let zoom := clampR (st.zoomDistance + ev.deltaY * effectiveSpeed) cfg.minZoom cfg.maxZoom
    { st with zoomDistance := zoom, camZ := zoom }

/-! ### Drag-and-place controller (src/src/drag.js) -/

/-- A 3-vector over exact reals (three.js `Vector3`). -/
structure Vec3 where
  x : ℝ
  y : ℝ
  z : ℝ

/-- Componentwise vector addition. -/
def vadd (a b : Vec3) : Vec3 := ⟨a.x + b.x, a.y + b.y, a.z + b.z⟩

/-- Componentwise vector subtraction (`Vector3.sub`). -/
def vsub (a b : Vec3) : Vec3 := ⟨a.x - b.x, a.y - b.y, a.z - b.z⟩

/-- Scalar multiple (`Vector3.multiplyScalar`). -/
def vsmul (t : ℝ) (a : Vec3) : Vec3 := ⟨t * a.x, t * a.y, t * a.z⟩

/-- Dot product (`Vector3.dot`). -/
def vdot (a b : Vec3) : ℝ := a.x * b.x + a.y * b.y + a.z * b.z

/-- `Vector3.length`. -/
noncomputable def vlength (v : Vec3) : ℝ := Real.sqrt (v.x ^ 2 + v.y ^ 2 + v.z ^ 2)

/-- `Vector3.normalize`: `divideScalar(length() || 1)` — a zero-length vector
is divided by 1 and therefore left unchanged. -/
noncomputable def vnormalize (v : Vec3) : Vec3 :=
  let d := if vlength v = 0 then 1 else vlength v
  ⟨v.x / d, v.y / d, v.z / d⟩

/-- A camera as seen by `makePlane`: its world position, and the unit view
direction returned by `getWorldDirection`. -/
structure CameraR where
  position : Vec3
  viewDir : Vec3

/-- three.js `Plane`, stored in constant-normal form. -/
structure PlaneR where
  normal : Vec3
  constant : ℝ

/-- `Plane.setFromNormalAndCoplanarPoint`: `constant = -point.dot(normal)`. -/
def setFromNormalAndCoplanarPoint (n point : Vec3) : PlaneR :=
  { normal := n, constant := -(vdot point n) }

/-- `Plane.distanceToPoint`: `normal.dot(point) + constant`. -/
def planeDistanceToPoint (pl : PlaneR) (p : Vec3) : ℝ :=
  vdot pl.normal p + pl.constant

/-- The bounding-sphere anchor `{center, radius}` produced by
`computeBaseAnchor`. -/
structure Anchor where
  center : Vec3
  radius : ℝ

/-- `makePlane(cam, anchor)` from src/src/drag.js: a plane normal to the
camera's (normalized) view direction, placed either just in front of the
anchor sphere's surface (never closer than 0.05 to the camera) or, with no
anchor, one unit in front of the camera. -/
noncomputable def makePlane (cam : CameraR) (anchor : Option Anchor) : PlaneR :=
  let normal := vnormalize cam.viewDir
  match anchor with
  | some a =>
    let toBase := vsub a.center cam.position
    let distanceToBase := max (vdot toBase normal) 0.1
    let epsilon := max (a.radius * 0.02) 0.05
    let targetDistance := max (distanceToBase - a.radius + epsilon) 0.05
    let point := vadd cam.position (vsmul targetDistance normal)
    setFromNormalAndCoplanarPoint normal point
  | none =>
    setFromNormalAndCoplanarPoint normal (vadd cam.position (vsmul 1 normal))

/-- An entry of the loader model registry as consumed by drag.js.
Modelled from the spec: the loaders module holding `getModelMeta` and
`getModelRegistry` is not present under src/ (only this caller is); per the
spec the drag controller resolves "the referenced loaded object by
identifier", and the entry may lack a loaded model when the asset never
loaded.  `hasModel` stands for `registryEntry.model` being present, `radius`
for the stored bounding radius consumed by `relativeScale`. -/
structure RegEntry where
  id : String
  hasModel : Bool
  radius : JsNum
deriving DecidableEq, Repr

/-- The environment captured by `initDrag`'s closures: the accessory config
entries (backing `accessoryMap`), the loader model registry, the camera, the
precomputed base anchor, and the base size/radius passed in `options`. -/
structure DragEnv where
  accessories : List Entry
  registry : List RegEntry
  camera : CameraR
  baseAnchor : Option Anchor
  baseSize : JsNum
  baseRadius : JsNum

/-- `accessoryMap.get(objectId)`: a JS `Map` built from a list keeps the last
entry for a duplicated key, so lookup searches the reversed list. -/
def lookupAccessory (l : List Entry) (oid : String) : Option Entry :=
  l.reverse.find? (fun a => a.name == oid)

/-- `getModelMeta(objectId) || getModelRegistry().find(e => e.id === objectId)`
followed by the `if (!registryEntry?.model)` guard of `onPointerDown`:
resolves the registry entry by id and yields it only when it holds a loaded
model.  (Modelled from the spec for the loaders half, see `RegEntry`.) -/
def resolveRegistry (env : DragEnv) (oid : String) : Option RegEntry :=
  match env.registry.find? (fun e => e.id == oid) with
  | none => none
  | some e => if e.hasModel then some e else none

/-- The drag session record built by `onPointerDown` (`active`).
`model` is the identifier of the clone added to the scene. -/
structure DragSession where
  model : Nat
  plane : PlaneR
  thumb : Nat
  objectId : String
  scale : Option JsNum
  startTime : Option ℝ
  returning : Bool

/-- The drag controller's state: the `active` session, the identifiers of
clones currently added to the scene, whether the interaction controller is
enabled, and a counter supplying fresh clone identifiers. -/
structure DragState where
  active : Option DragSession
  scene : List Nat
  interactionEnabled : Bool
  nextCloneId : Nat

/-- A pointer-down event over the tray: the object id carried by the closest
`[data-object-id]` ancestor of the event target (if any), and the identity of
that tray element. -/
structure TrayEvent where
  targetObjectId : Option String
  targetElem : Nat

/-- `onPointerDown(event)` from src/src/drag.js, line by line: bail out when
no tray element or no configured accessory matches; otherwise disable the
interaction controller, and either re-enable it and abort (no loaded model in
the registry) or clone the model (fresh id, added to the scene), build the
placement plane and relative scale, and install the new session in `active`.
The clone's pointer-driven position update (`updatePointerFromEvent` /
`updateModelPosition`) only sets the clone's position and is not part of this
state projection. -/
noncomputable def onPointerDown (env : DragEnv) (st : DragState) (ev : TrayEvent) : DragState :=
  match ev.targetObjectId with
  | none => st
  | some objectId =>
    match lookupAccessory env.accessories objectId with
    | none => st
    | some accessory =>
      let st1 : DragState := { st with interactionEnabled := false }
      match resolveRegistry env objectId with
      | none => { st1 with interactionEnabled := true }
      | some entry =>
        let cloneId := st1.nextCloneId
        let sess : DragSession :=
          { model := cloneId
            plane := makePlane env.camera env.baseAnchor
            thumb := ev.targetElem
            objectId := objectId
            scale := relativeScale (some accessory) env.baseSize env.baseRadius entry.radius
            startTime := none
            returning := false }
        { st1 with
          active := some sess
          scene := st1.scene ++ [cloneId]
          nextCloneId := cloneId + 1 }

/-! ### Concrete fixtures used by witness and counterexample theorems -/

/-- A camera one unit conventions: at `(0,0,5)` looking down `-z`. -/
def fixCamera : CameraR := ⟨⟨0, 0, 5⟩, ⟨0, 0, -1⟩⟩

/-- A drag environment with one loaded accessory named `"hat"`. -/
def fixDragEnv : DragEnv :=
  { accessories := [⟨"hat", "accessory", some (num 1)⟩]
    registry := [⟨"hat", true, num 1⟩]
    camera := fixCamera
    baseAnchor := none
    baseSize := num 1
    baseRadius := num 1 }

/-- A drag environment whose `"hat"` registry entry has no loaded model. -/
def fixDragEnvUnloaded : DragEnv :=
  { fixDragEnv with registry := [⟨"hat", false, num 1⟩] }

/-- An in-flight drag session holding clone 0. -/
noncomputable def fixSession : DragSession :=
  { model := 0
    plane := makePlane fixCamera none
    thumb := 0
    objectId := "hat"
    scale := none
    startTime := none
    returning := false }

/-- A drag state with `fixSession` active and its clone in the scene. -/
noncomputable def fixDragActive : DragState :=
  { active := some fixSession, scene := [0], interactionEnabled := false, nextCloneId := 1 }

/-- An idle drag state. -/
def fixDragIdle : DragState :=
  { active := none, scene := [], interactionEnabled := true, nextCloneId := 0 }

/-- A tray pointer-down resolving to the `"hat"` thumbnail. -/
def fixTrayEvent : TrayEvent := { targetObjectId := some "hat", targetElem := 1 }

/-- An interaction config with friction 1/2 and the default (zero) minimum
angular speed and upright strength. -/
noncomputable def fixCfg : IConfig :=
  { spinAcceleration := 2
    spinFriction := 1/2
    idleSpinImpulse := 1/5
    minZoom := 2
    maxZoom := 12
    zoomSpeed := 1/500
    pinchZoomMultiplier := 4
    xAxisMultiplier := 3/5
    yAxisMultiplier := 1
    minAngularSpeed := 0
    initialYawSpin := 0
    uprightStrength := 0
    uprightThreshold := 0 }

/-- A coasting controller state with no active pointers. -/
noncomputable def fixIState : IState :=
  { enabled := true
    isDragging := false
    coasting := true
    lastX := 0
    lastY := 0
    lastMoveTime := 0
    velocityX := 1
    velocityY := 1
    zoomDistance := 5
    pinchStartDistance := 0
    activePointers := []
    rotX := 0
    rotY := 0
    rotZ := 0
    camX := 0
    camY := 0
    camZ := 5 }

/-- A mid-drag controller state with a single active pointer (id 0). -/
noncomputable def fixIStateDragging : IState :=
  { fixIState with isDragging := true, coasting := false, activePointers := [(0, 10, 20)] }

/-- A pointer-move event for pointer id 0. -/
noncomputable def fixMoveEvent : PEvent :=
  { pointerId := 0, clientX := 60, clientY := 20, timeStamp := 16 }

/-- A wheel event with a large negative delta. -/
noncomputable def fixWheelEvent : WEvent := { deltaY := -100000, ctrlKey := false, deltaMode := 0 }

/-! ## Helper lemmas -/

theorem clampJs_nan_bound (v minv maxv : JsNum) (h : minv = JsNum.nan ∨ maxv = JsNum.nan) :
    clampJs v minv maxv = JsNum.nan := by
  rcases h with h | h
  · subst h; cases v <;> cases maxv <;> rfl
  · subst h; cases v <;> cases minv <;> rfl

theorem socketsOf_objectId (n : List SNode) (oid : String) :
    ∀ r ∈ socketsOf n oid, r.objectId = oid := by
  intro r hr
  simp only [socketsOf, List.mem_map] at hr
  obtain ⟨a, _, rfl⟩ := hr
  rfl

theorem filter_ne_socketsOf (n : List SNode) (oid : String) :
    (socketsOf n oid).filter (fun r => r.objectId ≠ oid) = [] := by
  refine List.filter_eq_nil_iff.mpr ?_
  intro r hr
  simpa using socketsOf_objectId n oid r hr

theorem filter_eq_socketsOf (n : List SNode) (oid : String) :
    (socketsOf n oid).filter (fun r => r.objectId = oid) = socketsOf n oid := by
  refine List.filter_eq_self.mpr ?_
  intro r hr
  simpa using socketsOf_objectId n oid r hr

theorem filter_ne_idem (reg : List SocketRecord) (oid : String) :
    (reg.filter (fun r => r.objectId ≠ oid)).filter (fun r => r.objectId ≠ oid)
      = reg.filter (fun r => r.objectId ≠ oid) := by
  refine List.filter_eq_self.mpr ?_
  intro r hr
  exact (List.mem_filter.mp hr).2

theorem filter_eq_of_filter_ne (reg : List SocketRecord) (oid : String) :
    (reg.filter (fun r => r.objectId ≠ oid)).filter (fun r => r.objectId = oid) = [] := by
  refine List.filter_eq_nil_iff.mpr ?_
  intro r hr
  have h2 := (List.mem_filter.mp hr).2
  simp only [decide_eq_true_eq] at h2 ⊢
  exact h2

/-! ## Claim theorems -/

/-- C2, counterexample: with a NaN `minZoom` bound (a non-finite clamp
bound) and perfectly finite current zoom and wheel delta, the wheel zoom
update propagates NaN into `zoomDistance` instead of falling back — refuting
"the resulting zoomDistance is never NaN". -/
theorem wheelZoom_nan_counterexample :
    JsNum.nan.isFinite = false ∧
    wheelZoomJs (num (1/500)) (num 4) JsNum.nan (num 12) (num 5) (num 0) false = JsNum.nan :=
  ⟨rfl, rfl⟩

/-- C2 (amended): for every wheel or pinch zoom input, when either clamp
bound (`minZoom` or `maxZoom`) is NaN, the resulting `zoomDistance` is NaN:
`Math.max`/`Math.min` propagate the non-finite bound and no fallback to the
unclamped or last-good value exists in the code. -/
theorem zoom_nan_propagates (zoomSpeed pinchZoomMultiplier minZoom maxZoom zoomDistance
    deltaY distDelta : JsNum) (isPinchLike : Bool)
    (h : minZoom = JsNum.nan ∨ maxZoom = JsNum.nan) :
    wheelZoomJs zoomSpeed pinchZoomMultiplier minZoom maxZoom zoomDistance deltaY isPinchLike
        = JsNum.nan ∧
    pinchZoomJs zoomSpeed pinchZoomMultiplier minZoom maxZoom zoomDistance distDelta
        = JsNum.nan := by
  constructor
  · exact clampJs_nan_bound _ _ _ h
  · exact clampJs_nan_bound _ _ _ h

/-- C2 witness: the amended statement at a concrete input (NaN `minZoom`). -/
theorem zoom_nan_propagates_witness :
    wheelZoomJs (num (1/500)) (num 4) JsNum.nan (num 12) (num 5) (num (-3)) true = JsNum.nan ∧
    pinchZoomJs (num (1/500)) (num 4) JsNum.nan (num 12) (num 5) (num 40) = JsNum.nan :=
  zoom_nan_propagates (num (1/500)) (num 4) JsNum.nan (num 12) (num 5) (num (-3)) (num 40)
    true (Or.inl rfl)


theorem div_num_pos (a b : ℚ) (hb : 0 < b) : JsNum.div (num a) (num b) = num (a / b) := by
  simp [JsNum.div, hb.ne']

theorem mul_num (a b : ℚ) : JsNum.mul (num a) (num b) = num (a * b) := rfl

theorem relativeScale_unfold (e : Entry) (s : ℚ) (bs br ar : JsNum)
    (hclass : e.objClass = "accessory") (hsize : e.size = some (num s)) :
    relativeScale (some e) bs br ar =
      (let base := if (bs.isFinite && jlt (num 0) bs) = true then bs else num 1
       let radiusFactor :=
         if (br.isFinite && ar.isFinite && jlt (num 0) ar) = true
         then JsNum.div br ar else num 1
       let finalScale := JsNum.mul (JsNum.div (num s) base) radiusFactor
       if (finalScale.isFinite && jlt (num 0) finalScale) = true then some finalScale
       else none) := by
  simp only [relativeScale, hclass, hsize, ne_eq, not_true_eq_false, if_false,
    JsNum.isFinite, Bool.not_true, reduceIte]

theorem baseNum (bs : JsNum) :
    (if (bs.isFinite && jlt (num 0) bs) = true then bs else num 1)
      = num (match bs with
             | num b => if 0 < b then b else 1
             | _ => 1) := by
  cases bs with
  | num b =>
    by_cases hb : 0 < b <;> simp [JsNum.isFinite, JsNum.jlt, hb]
  | nan => rfl
  | posInf => rfl
  | negInf => rfl

theorem basePos (bs : JsNum) :
    0 < (match bs with
         | num b => if 0 < b then b else 1
         | _ => (1 : ℚ)) := by
  cases bs with
  | num b => by_cases hb : 0 < b <;> simp [hb]
  | nan => norm_num
  | posInf => norm_num
  | negInf => norm_num

theorem factorNum (br ar : JsNum) :
    (if (br.isFinite && ar.isFinite && jlt (num 0) ar) = true
     then JsNum.div br ar else num 1)
      = num (match br, ar with
             | num b, num a => if 0 < a then b / a else 1
             | _, _ => 1) := by
  cases br <;> cases ar <;>
    simp [JsNum.isFinite, JsNum.jlt, JsNum.div]
  case num.num b a =>
    by_cases ha : 0 < a <;> simp [ha, JsNum.div, ne_of_gt]

/-- C3, counterexample: for an accessory with declared size 2, `baseSize` 1,
a finite but negative `baseRadius = -3` and `accessoryRadius = 1`, the claim's
formula defaults the geometry quotient to 1 (since `baseRadius` is not a
finite positive number) and yields 2, but the code only requires
`accessoryRadius` to be positive, computes quotient -3, gets product -6, and
returns `undefined`. -/
theorem relativeScale_counterexample :
    relativeScale (some ⟨"x", "accessory", some (num 2)⟩) (num 1) (num (-3)) (num 1) = none ∧
    relativeScaleClaimed (some ⟨"x", "accessory", some (num 2)⟩) (num 1) (num (-3)) (num 1)
      = some (num 2) := by
  constructor
  · norm_num [relativeScale, JsNum.isFinite, JsNum.jlt, JsNum.div, JsNum.mul]
  · norm_num [relativeScaleClaimed, JsNum.isFinite, JsNum.jlt, JsNum.div, JsNum.mul]

/-- C3 (amended): for every accessory entry with a finite declared size `s`,
`relativeScale` equals `s / base'` times the geometry quotient, where `base'`
is `baseSize` when finite and positive and 1 otherwise, and the geometry
quotient is `baseRadius / accessoryRadius` when both radii are finite and
`accessoryRadius` is positive (the sign of `baseRadius` is NOT checked) and 1
otherwise; the result is `undefined` unless that product is positive (it is
automatically finite). -/
theorem relativeScale_eval (e : Entry) (s : ℚ) (bs br ar : JsNum)
    (hclass : e.objClass = "accessory") (hsize : e.size = some (num s)) :
    relativeScale (some e) bs br ar =
      (let base : ℚ := match bs with
        | num b => if 0 < b then b else 1
        | _ => 1
       let factor : ℚ := match br, ar with
        | num b, num a => if 0 < a then b / a else 1
        | _, _ => 1
       let finalScale := s / base * factor
       if 0 < finalScale then some (num finalScale) else none) := by
  rw [relativeScale_unfold e s bs br ar hclass hsize]
  simp only [baseNum, factorNum, div_num_pos s _ (basePos bs), mul_num]
  simp [JsNum.isFinite, JsNum.jlt]

/-- C3 witness: the amended statement at a concrete input
(size 2, base 1, radii 3 and 2, yielding scale 3). -/
theorem relativeScale_eval_witness :
    relativeScale (some ⟨"hat", "accessory", some (num 2)⟩) (num 1) (num 3) (num 2)
      = some (num 3) :=
  (relativeScale_eval ⟨"hat", "accessory", some (num 2)⟩ 2 (num 1) (num 3) (num 2)
    rfl rfl).trans (by norm_num)

theorem filter_comm_ne (reg : List SocketRecord) (oid oid2 : String) (hne : oid2 ≠ oid) :
    (reg.filter (fun r => r.objectId ≠ oid)).filter (fun r => r.objectId = oid2)
      = reg.filter (fun r => r.objectId = oid2) := by
  rw [List.filter_filter]
  apply List.filter_congr
  intro r _
  by_cases h : r.objectId = oid2
  · simp [h, hne]
  · simp [h]

/-- C7: re-registering sockets for the same `objectId` with a different node
set leaves exactly the second set's records for that id (no duplicates and no
stale records from the first call), while records for every other object id
are untouched. -/
theorem collectSockets_replaces (reg : List SocketRecord) (n1 n2 : List SNode) (oid : String) :
    collectSockets (collectSockets reg n1 oid) n2 oid
      = reg.filter (fun r => r.objectId ≠ oid) ++ socketsOf n2 oid
    ∧ (collectSockets (collectSockets reg n1 oid) n2 oid).filter (fun r => r.objectId = oid)
      = socketsOf n2 oid
    ∧ ∀ oid2, oid2 ≠ oid →
        (collectSockets (collectSockets reg n1 oid) n2 oid).filter (fun r => r.objectId = oid2)
          = reg.filter (fun r => r.objectId = oid2) := by
  have hmain : collectSockets (collectSockets reg n1 oid) n2 oid
      = reg.filter (fun r => r.objectId ≠ oid) ++ socketsOf n2 oid := by
    unfold collectSockets
    rw [List.filter_append, filter_ne_idem, filter_ne_socketsOf, List.append_nil]
  refine ⟨hmain, ?_, ?_⟩
  · rw [hmain, List.filter_append, filter_eq_of_filter_ne, filter_eq_socketsOf,
      List.nil_append]
  · intro oid2 hne
    rw [hmain, List.filter_append]
    have h1 : (socketsOf n2 oid).filter (fun r => r.objectId = oid2) = [] := by
      refine List.filter_eq_nil_iff.mpr ?_
      intro r hr
      have hm := socketsOf_objectId n2 oid r hr
      simp only [decide_eq_true_eq]
      intro hcon
      exact hne (by rw [← hcon, hm])
    rw [h1, filter_comm_ne reg oid oid2 hne, List.append_nil]

/-- C7 witness: a concrete double registration for object `"obj"`. -/
theorem collectSockets_replaces_witness :
    collectSockets (collectSockets [] [⟨some "socket_a"⟩, ⟨some "plain"⟩] "obj")
        [⟨some "socket_b"⟩] "obj"
      = [{ objectId := "obj", socketId := "socket_b", node := ⟨some "socket_b"⟩ }] ∧
    (collectSockets (collectSockets
        [{ objectId := "other", socketId := "socket_z", node := ⟨some "socket_z"⟩ }]
        [⟨some "socket_a"⟩] "obj") [⟨some "socket_b"⟩] "obj").filter
        (fun r => r.objectId = "other")
      = [{ objectId := "other", socketId := "socket_z", node := ⟨some "socket_z"⟩ }] := by
  constructor
  · exact ((collectSockets_replaces [] [⟨some "socket_a"⟩, ⟨some "plain"⟩]
      [⟨some "socket_b"⟩] "obj").1).trans (by decide)
  · exact (((collectSockets_replaces
      [{ objectId := "other", socketId := "socket_z", node := ⟨some "socket_z"⟩ }]
      [⟨some "socket_a"⟩] [⟨some "socket_b"⟩] "obj").2.2) "other" (by decide)).trans (by decide)

theorem clampR_mem (v lo hi : ℝ) (h : lo ≤ hi) :
    lo ≤ clampR v lo hi ∧ clampR v lo hi ≤ hi :=
  ⟨le_max_left lo (min hi v), max_le h (min_le_left hi v)⟩

/-- C5: with finite bounds satisfying `minZoom ≤ maxZoom`, the zoom distance
produced by any wheel input lies in `[minZoom, maxZoom]` for arbitrary delta
magnitudes, and any pointer-move either leaves the zoom distance unchanged
(non-pinch moves) or lands it in `[minZoom, maxZoom]` (pinch moves). -/
theorem zoom_clamped (cfg : IConfig) (st : IState) (wev : WEvent) (pev : PEvent)
    (hb : cfg.minZoom ≤ cfg.maxZoom) (hen : st.enabled = true) :
    (cfg.minZoom ≤ (onWheel cfg st wev).zoomDistance ∧
      (onWheel cfg st wev).zoomDistance ≤ cfg.maxZoom) ∧
    ((onPointerMove cfg st pev).zoomDistance = st.zoomDistance ∨
      (cfg.minZoom ≤ (onPointerMove cfg st pev).zoomDistance ∧
        (onPointerMove cfg st pev).zoomDistance ≤ cfg.maxZoom)) := by
  constructor
  · unfold onWheel
    simp only [hen, Bool.true_eq_false, if_false]
    exact clampR_mem _ _ _ hb
  · unfold onPointerMove
    simp only [hen, Bool.true_eq_false, if_false]
    by_cases hk : hasKey st.activePointers pev.pointerId
    · simp only [hk, not_true_eq_false, if_false]
      by_cases h2 : ((mapSet st.activePointers pev.pointerId
          (pev.clientX, pev.clientY)).map Prod.snd).length = 2
      · simp only [h2, if_true]
        exact Or.inr (clampR_mem _ _ _ hb)
      · simp only [h2, if_false]
        by_cases h3 : st.isDragging = false ∨
            ((mapSet st.activePointers pev.pointerId
              (pev.clientX, pev.clientY)).map Prod.snd).length = 0
        · simp only [h3, if_true]
          exact Or.inl (by trivial)
        · simp only [h3, if_false]
          exact Or.inl (by trivial)
    · simp only [hk, not_false_eq_true, if_true]
      exact Or.inl (by trivial)

/-- C5 witness: a concrete wheel event with a large negative delta and a
concrete pointer-move, at the fixture config with bounds `[2, 12]`. -/
theorem zoom_clamped_witness :
    (fixCfg.minZoom ≤ (onWheel fixCfg fixIState fixWheelEvent).zoomDistance ∧
      (onWheel fixCfg fixIState fixWheelEvent).zoomDistance ≤ fixCfg.maxZoom) ∧
    ((onPointerMove fixCfg fixIState fixMoveEvent).zoomDistance = fixIState.zoomDistance ∨
      (fixCfg.minZoom ≤ (onPointerMove fixCfg fixIState fixMoveEvent).zoomDistance ∧
        (onPointerMove fixCfg fixIState fixMoveEvent).zoomDistance ≤ fixCfg.maxZoom)) :=
  zoom_clamped fixCfg fixIState fixWheelEvent fixMoveEvent
    (by norm_num [fixCfg]) (by norm_num [fixIState])

/-- C6: during a single-pointer drag, a pointer-move adds exactly
`dx * (spinAcceleration * 0.002) * yAxisMultiplier` to the yaw and
`dy * (spinAcceleration * 0.002) * xAxisMultiplier` to the pitch, where
`(dx, dy)` is the screen delta since the last sample; the added rotation does
not depend on the event timestamp (elapsed time only enters the released
angular velocity). -/
theorem pointerMove_rotation (cfg : IConfig) (st : IState) (ev : PEvent) (p : ℝ × ℝ)
    (hen : st.enabled = true) (hdrag : st.isDragging = true)
    (hp : st.activePointers = [(ev.pointerId, p)]) :
    (onPointerMove cfg st ev).rotY
      = st.rotY + (ev.clientX - st.lastX) * (cfg.spinAcceleration * 0.002)
          * cfg.yAxisMultiplier ∧
    (onPointerMove cfg st ev).rotX
      = st.rotX + (ev.clientY - st.lastY) * (cfg.spinAcceleration * 0.002)
          * cfg.xAxisMultiplier := by
  unfold onPointerMove
  simp [hen, hp, hasKey, mapSet, hdrag]

/-- C6 witness: the rotation increments at a concrete dragging state and
pointer event. -/
theorem pointerMove_rotation_witness :
    (onPointerMove fixCfg fixIStateDragging fixMoveEvent).rotY
      = fixIStateDragging.rotY
        + (fixMoveEvent.clientX - fixIStateDragging.lastX)
          * (fixCfg.spinAcceleration * 0.002) * fixCfg.yAxisMultiplier ∧
    (onPointerMove fixCfg fixIStateDragging fixMoveEvent).rotX
      = fixIStateDragging.rotX
        + (fixMoveEvent.clientY - fixIStateDragging.lastY)
          * (fixCfg.spinAcceleration * 0.002) * fixCfg.xAxisMultiplier :=
  pointerMove_rotation fixCfg fixIStateDragging fixMoveEvent (10, 20)
    (by norm_num [fixIStateDragging, fixIState])
    (by norm_num [fixIStateDragging, fixIState])
    (by norm_num [fixIStateDragging, fixIState, fixMoveEvent])

/-- C10: neither the per-frame `update` nor any pointer-move ever changes the
roll component `model.rotation.z`; only yaw and pitch are mutated. -/
theorem rotZ_preserved (cfg : IConfig) (st : IState) (delta : ℝ) (ev : PEvent) :
    (update cfg st delta).rotZ = st.rotZ ∧ (onPointerMove cfg st ev).rotZ = st.rotZ := by
  constructor
  · rfl
  · unfold onPointerMove
    dsimp only
    split_ifs <;> rfl

theorem update_coasting (cfg : IConfig) (st : IState) (delta : ℝ) :
    (update cfg st delta).coasting = st.coasting := rfl

theorem updateIter_coasting (cfg : IConfig) (delta : ℝ) (st : IState) :
    ∀ n, (updateIter cfg delta n st).coasting = st.coasting
  | 0 => rfl
  | n + 1 => updateIter_coasting cfg delta st n

theorem clampR_nonneg_le_one (f : ℝ) : 0 ≤ clampR f 0 1 ∧ clampR f 0 1 ≤ 1 :=
  ⟨le_max_left 0 (min 1 f), max_le zero_le_one (min_le_left 1 f)⟩

theorem update_coasting_velocity (cfg : IConfig) (st : IState) (delta : ℝ)
    (hms : cfg.minAngularSpeed ≤ 0) (hup : cfg.uprightStrength ≤ 0)
    (hco : st.coasting = true) :
    (update cfg st delta).velocityX
        = st.velocityX * (1 - clampR cfg.spinFriction 0 1) ^ delta ∧
    (update cfg st delta).velocityY
        = st.velocityY * (1 - clampR cfg.spinFriction 0 1) ^ delta := by
  have hmax : max cfg.minAngularSpeed 0 = 0 := max_eq_right hms
  have hnup : ¬ 0 < cfg.uprightStrength := not_lt.mpr hup
  unfold update
  simp [hco, hmax, hnup, lt_irrefl]

theorem damping_mem (f delta : ℝ) (hdelta : 0 < delta) :
    0 ≤ (1 - clampR f 0 1) ^ delta ∧ (1 - clampR f 0 1) ^ delta ≤ 1 := by
  obtain ⟨h0, h1⟩ := clampR_nonneg_le_one f
  constructor
  · exact Real.rpow_nonneg (by linarith) delta
  · exact Real.rpow_le_one (by linarith) (by linarith) hdelta.le

/-- C4: while coasting, with the default (zero-or-less) minimum angular speed
and upright strength, repeated `update` calls with a fixed positive
`deltaSeconds` make both angular velocity components monotonically
non-increasing in magnitude for every friction value in [0,1]; friction 0
preserves both components exactly at every iteration, and friction 1 zeroes
both in a single update. -/
theorem coasting_friction_decay (cfg : IConfig) (st : IState) (delta : ℝ)
    (hms : cfg.minAngularSpeed ≤ 0) (hup : cfg.uprightStrength ≤ 0)
    (hco : st.coasting = true) (hdelta : 0 < delta)
    (hf0 : 0 ≤ cfg.spinFriction) (hf1 : cfg.spinFriction ≤ 1) :
    (∀ n : ℕ,
      |(updateIter cfg delta (n + 1) st).velocityX|
          ≤ |(updateIter cfg delta n st).velocityX| ∧
      |(updateIter cfg delta (n + 1) st).velocityY|
          ≤ |(updateIter cfg delta n st).velocityY|) ∧
    (cfg.spinFriction = 0 → ∀ n : ℕ,
      (updateIter cfg delta n st).velocityX = st.velocityX ∧
      (updateIter cfg delta n st).velocityY = st.velocityY) ∧
    (cfg.spinFriction = 1 →
      (update cfg st delta).velocityX = 0 ∧ (update cfg st delta).velocityY = 0) := by
  have hdm := damping_mem cfg.spinFriction delta hdelta
  refine ⟨?_, ?_, ?_⟩
  · intro n
    have hco' : (updateIter cfg delta n st).coasting = true := by
      rw [updateIter_coasting]; exact hco
    obtain ⟨hx, hy⟩ := update_coasting_velocity cfg (updateIter cfg delta n st) delta
      hms hup hco'
    constructor
    · show |(update cfg (updateIter cfg delta n st) delta).velocityX| ≤ _
      rw [hx, abs_mul, abs_of_nonneg hdm.1]
      exact mul_le_of_le_one_right (abs_nonneg _) hdm.2
    · show |(update cfg (updateIter cfg delta n st) delta).velocityY| ≤ _
      rw [hy, abs_mul, abs_of_nonneg hdm.1]
      exact mul_le_of_le_one_right (abs_nonneg _) hdm.2
  · intro hf n
    have hone : (1 - clampR cfg.spinFriction 0 1) ^ delta = 1 := by
      rw [hf]
      norm_num [clampR, Real.one_rpow]
    induction n with
    | zero => exact ⟨rfl, rfl⟩
    | succ n ih =>
      have hco' : (updateIter cfg delta n st).coasting = true := by
        rw [updateIter_coasting]; exact hco
      obtain ⟨hx, hy⟩ := update_coasting_velocity cfg (updateIter cfg delta n st) delta
        hms hup hco'
      constructor
      · show (update cfg (updateIter cfg delta n st) delta).velocityX = _
        rw [hx, hone, mul_one]
        exact ih.1
      · show (update cfg (updateIter cfg delta n st) delta).velocityY = _
        rw [hy, hone, mul_one]
        exact ih.2
  · intro hf
    have hzero : (1 - clampR cfg.spinFriction 0 1) ^ delta = 0 := by
      rw [hf]
      have : (1 : ℝ) - clampR 1 0 1 = 0 := by norm_num [clampR]
      rw [this]
      exact Real.zero_rpow hdelta.ne'
    obtain ⟨hx, hy⟩ := update_coasting_velocity cfg st delta hms hup hco
    exact ⟨by rw [hx, hzero, mul_zero], by rw [hy, hzero, mul_zero]⟩

/-- C4 witness: one iteration step at the fixture state (friction 1/2,
velocities 1, delta 1). -/
theorem coasting_friction_decay_witness :
    |(updateIter fixCfg 1 1 fixIState).velocityX|
        ≤ |(updateIter fixCfg 1 0 fixIState).velocityX| ∧
    |(updateIter fixCfg 1 1 fixIState).velocityY|
        ≤ |(updateIter fixCfg 1 0 fixIState).velocityY| :=
  (coasting_friction_decay fixCfg fixIState 1 (by norm_num [fixCfg]) (by norm_num [fixCfg])
    rfl (by norm_num) (by norm_num [fixCfg]) (by norm_num [fixCfg])).1 0

theorem vnormalize_of_unit (v : Vec3) (h : vlength v = 1) : vnormalize v = v := by
  unfold vnormalize
  rw [h]
  simp

theorem vdot_self_of_unit (v : Vec3) (h : vlength v = 1) : vdot v v = 1 := by
  have h3 : v.x ^ 2 + v.y ^ 2 + v.z ^ 2 = 1 := by
    have hnn : 0 ≤ v.x ^ 2 + v.y ^ 2 + v.z ^ 2 := by positivity
    have hsq := Real.sq_sqrt hnn
    rw [show Real.sqrt (v.x ^ 2 + v.y ^ 2 + v.z ^ 2) = 1 from h] at hsq
    simpa using hsq.symm
  calc vdot v v = v.x ^ 2 + v.y ^ 2 + v.z ^ 2 := by unfold vdot; ring
    _ = 1 := h3

theorem planeDist_shift (n pos : Vec3) (t : ℝ) (h : vdot n n = 1) :
    planeDistanceToPoint (setFromNormalAndCoplanarPoint n (vadd pos (vsmul t n))) pos = -t := by
  unfold vdot at h
  unfold planeDistanceToPoint setFromNormalAndCoplanarPoint vadd vsmul vdot
  linear_combination (-t) * h

/-- C9: for every camera pose (unit view direction) and every anchor argument
(including none), the plane built by `makePlane` has the camera view
direction as its normal, and its coplanar point lies strictly in front of the
camera along that direction: at signed camera-to-plane distance `-t` with
`t ≥ 0.05` when an anchor exists, and exactly `-1` (distance 1) otherwise. -/
theorem makePlane_fronting (cam : CameraR) (anchor : Option Anchor)
    (hunit : vlength cam.viewDir = 1) :
    (makePlane cam anchor).normal = cam.viewDir ∧
    (∀ a, anchor = some a →
      planeDistanceToPoint (makePlane cam anchor) cam.position ≤ -0.05) ∧
    (anchor = none →
      planeDistanceToPoint (makePlane cam anchor) cam.position = -1) := by
  have hn := vnormalize_of_unit cam.viewDir hunit
  have hdot := vdot_self_of_unit cam.viewDir hunit
  cases anchor with
  | none =>
    simp only [makePlane, hn]
    refine ⟨rfl, ?_, ?_⟩
    · intro a ha
      exact Option.noConfusion ha
    · intro _
      have hres := planeDist_shift cam.viewDir cam.position 1 hdot
      simpa using hres
  | some a =>
    simp only [makePlane, hn]
    refine ⟨rfl, ?_, ?_⟩
    · intro a' _
      have ht : (0.05 : ℝ)
          ≤ max (max (vdot (vsub a.center cam.position) cam.viewDir) 0.1 - a.radius
              + max (a.radius * 0.02) 0.05) 0.05 :=
        le_max_right _ _
      rw [planeDist_shift cam.viewDir cam.position _ hdot]
      linarith [ht]
    · intro h
      exact Option.noConfusion h

/-- C9 witness: the fixture camera with no anchor geometry. -/
theorem makePlane_fronting_witness :
    (makePlane fixCamera none).normal = fixCamera.viewDir ∧
    (∀ a, (none : Option Anchor) = some a →
      planeDistanceToPoint (makePlane fixCamera none) fixCamera.position ≤ -0.05) ∧
    ((none : Option Anchor) = none →
      planeDistanceToPoint (makePlane fixCamera none) fixCamera.position = -1) :=
  makePlane_fronting fixCamera none
    (by norm_num [vlength, fixCamera, Real.sqrt_one])

/-- C1, counterexample: with a drag session already active (clone 0 in the
scene, `active` set), a pointer-down on a loaded accessory thumbnail is NOT a
no-op: `onPointerDown` has no active-session guard, so it adds a second clone
to the scene and overwrites the session state. -/
theorem dragPointerDown_counterexample :
    fixDragActive.active.isSome = true ∧
    (onPointerDown fixDragEnv fixDragActive fixTrayEvent).scene = [0, 1] ∧
    fixDragActive.scene = [0] ∧
    (onPointerDown fixDragEnv fixDragActive fixTrayEvent).active.map DragSession.model
      = some 1 ∧
    fixDragActive.active.map DragSession.model = some 0 :=
  ⟨rfl, rfl, rfl, rfl, rfl⟩

/-- C1 (amended): a pointer-down on a tray thumbnail while a session is
active is not ignored: whenever the thumbnail resolves to a configured and
loaded accessory, a fresh clone is appended to the scene and the session
state is replaced by a new session for that clone, while the previous
session's clone is left in the scene (it is never removed). -/
theorem dragPointerDown_while_active (env : DragEnv) (st : DragState) (ev : TrayEvent)
    (s : DragSession) (oid : String) (acc : Entry) (entry : RegEntry)
    (hactive : st.active = some s)
    (htarget : ev.targetObjectId = some oid)
    (hacc : lookupAccessory env.accessories oid = some acc)
    (hreg : resolveRegistry env oid = some entry) :
    (onPointerDown env st ev).scene = st.scene ++ [st.nextCloneId] ∧
    (onPointerDown env st ev).active.map DragSession.model = some st.nextCloneId ∧
    (s.model ∈ st.scene → s.model ∈ (onPointerDown env st ev).scene) := by
  unfold onPointerDown
  simp only [htarget, hacc, hreg]
  refine ⟨by trivial, by trivial, ?_⟩
  intro h
  exact List.mem_append_left _ h

/-- C1 witness: the amended statement at the concrete active-session
fixture. -/
theorem dragPointerDown_while_active_witness :
    (onPointerDown fixDragEnv fixDragActive fixTrayEvent).scene
      = fixDragActive.scene ++ [fixDragActive.nextCloneId] ∧
    (onPointerDown fixDragEnv fixDragActive fixTrayEvent).active.map DragSession.model
      = some fixDragActive.nextCloneId ∧
    (fixSession.model ∈ fixDragActive.scene →
      fixSession.model ∈ (onPointerDown fixDragEnv fixDragActive fixTrayEvent).scene) :=
  dragPointerDown_while_active fixDragEnv fixDragActive fixTrayEvent fixSession "hat"
    ⟨"hat", "accessory", some (num 1)⟩ ⟨"hat", true, num 1⟩ rfl rfl rfl rfl

/-- C8: a pointer-down on a tray entry whose referenced object has no loaded
model in the registry aborts silently: the scene and session are untouched
(in particular no clone is created) and the interaction controller ends up
re-enabled. -/
theorem dragPointerDown_unloaded (env : DragEnv) (st : DragState) (ev : TrayEvent)
    (oid : String) (acc : Entry)
    (htarget : ev.targetObjectId = some oid)
    (hacc : lookupAccessory env.accessories oid = some acc)
    (hreg : resolveRegistry env oid = none) :
    (onPointerDown env st ev).scene = st.scene ∧
    (onPointerDown env st ev).active = st.active ∧
    (onPointerDown env st ev).interactionEnabled = true ∧
    (onPointerDown env st ev).nextCloneId = st.nextCloneId := by
  unfold onPointerDown
  simp only [htarget, hacc, hreg]
  exact ⟨by trivial, by trivial, by trivial, by trivial⟩

/-- C8 witness: the concrete environment whose `"hat"` registry entry has no
loaded model. -/
theorem dragPointerDown_unloaded_witness :
    (onPointerDown fixDragEnvUnloaded fixDragIdle fixTrayEvent).scene = fixDragIdle.scene ∧
    (onPointerDown fixDragEnvUnloaded fixDragIdle fixTrayEvent).active = fixDragIdle.active ∧
    (onPointerDown fixDragEnvUnloaded fixDragIdle fixTrayEvent).interactionEnabled = true ∧
    (onPointerDown fixDragEnvUnloaded fixDragIdle fixTrayEvent).nextCloneId
      = fixDragIdle.nextCloneId :=
  dragPointerDown_unloaded fixDragEnvUnloaded fixDragIdle fixTrayEvent "hat"
    ⟨"hat", "accessory", some (num 1)⟩ rfl rfl rfl
